import Mathlib

/-!
Verification development for the `react-prerender-datacops` repository.

The repository's core is a Cloudflare Pages middleware (`middleware.ts`,
variant 2.0.0 with script injection — the variant the specification
describes) together with Supabase edge functions (the `prerender` cache
lookup and the `script-service` registry).  This file gives a shallow
embedding of those programs and proves properties of the embedding.

Modelling conventions:
* JavaScript strings are modelled as Lean `String` at the level of
  characters (JS UTF-16 code units and Unicode case mapping beyond
  ASCII are not modelled; every string literal occurring in the source
  is ASCII).
* `fetch` is an oracle `String → RequestInit → FetchOutcome` supplied to
  the request handler: the handler passes the exact URL and options the
  source builds, and the oracle answers with a response or a thrown
  error.  `resp.json()` parsing is likewise an oracle.
* Timestamps (`Date.now()`, `expires_at`) are `Int` epoch milliseconds.
-/

set_option maxRecDepth 10000
set_option maxHeartbeats 1000000

namespace Prerender

/-! Section: JavaScript string primitives -/

/-- Character-level model of JS `toLowerCase` (ASCII range, which is all
the source compares; Lean's `Char.toLower` maps exactly the basic latin
letters). -/
def lowerStr (s : String) : String := ⟨s.toList.map Char.toLower⟩

/-- `sub` occurs contiguously in `l` (Boolean, executable).  Models JS
`String.prototype.includes` on the character lists. -/
def containsSub (sub : List Char) : List Char → Bool
  | [] => sub.isEmpty
  | c :: rest => sub.isPrefixOf (c :: rest) || containsSub sub rest

/-- JS `s.includes(sub)`. -/
def jsIncludes (s sub : String) : Bool := containsSub sub.toList s.toList

/-- JS `s.startsWith(pre)`. -/
def strStartsWith (s pre : String) : Bool := pre.toList.isPrefixOf s.toList

/-- JS `s.endsWith(suf)`. -/
def strEndsWith (s suf : String) : Bool := suf.toList.isSuffixOf s.toList

/-- Drop the first `n` characters (JS `slice(n)` for nonnegative `n`). -/
def strDrop (s : String) (n : Nat) : String := ⟨s.toList.drop n⟩

/-- Take the first `n` characters (JS `substring(0, n)`). -/
def strTake (s : String) (n : Nat) : String := ⟨s.toList.take n⟩

/-- JS `x || dflt` for a nullable string `x` (both `null` and the empty
string are falsy). -/
def jsOrDefault (o : Option String) (dflt : String) : String :=
  match o with
  | some v => if v = "" then dflt else v
  | none => dflt

/-! Section: Bot classifier (`middleware.ts`, `BOT_AGENTS` and `isBot`) -/

/-- The literal `BOT_AGENTS` list of `middleware.ts` (source order). -/
def BOT_AGENTS : List String := [
  "googlebot", "bingbot", "yandexbot", "baiduspider", "duckduckbot",
  "slurp", "sogou", "exabot", "ia_archiver",
  "gptbot", "chatgpt-user", "oai-searchbot",
  "claudebot", "claude-user", "claude-searchbot",
  "google-extended", "google-cloudvertexbot", "gemini-deep-research",
  "perplexitybot", "perplexity-user",
  "meta-externalagent", "meta-webindexer",
  "bytespider", "amazonbot", "duckassistbot",
  "mistralai-user", "cohere-ai", "ccbot", "diffbot", "webzio", "icc-crawler",
  "facebookexternalhit", "facebot", "twitterbot", "linkedinbot",
  "pinterest", "whatsapp", "telegrambot", "slackbot", "discordbot",
  "vkshare", "redditbot", "tumblr", "embedly", "quora link preview", "outbrain",
  "semrushbot", "ahrefsbot", "mj12bot", "dotbot", "rogerbot",
  "screaming frog", "seokicks", "blexbot", "siteexplorer", "serpstatbot",
  "applebot", "applebot-extended", "petalbot", "seznambot",
  "naver", "yeti", "qwantify", "ecosia", "mojeek",
  "mediapartners-google", "adsbot-google", "feedfetcher-google",
  "google-read-aloud", "storebot-google", "google-safety",
  "archive.org_bot", "wayback", "wget", "curl", "python-requests",
  "go-http-client", "java", "libwww-perl", "axios", "httpie", "postman",
  "feedly", "flipboard", "newsblur", "inoreader", "theoldreader", "feedbin"]

/-- `function isBot(ua)`: empty UA is falsy and classified human;
otherwise the lowercased UA is matched for any bot substring. -/
def isBot (ua : String) : Bool :=
  if ua = "" then false
  else BOT_AGENTS.any (fun bot => jsIncludes (lowerStr ua) bot)

/-! Section: Route classification (`isStaticAsset` and the sitemap patterns) -/

/-- The alternatives of the static-asset extension regex
`/\.(js|css|...|avif)$/i`, with `woff2?` expanded. -/
def STATIC_EXTS : List String := [
  "js", "css", "png", "jpg", "jpeg", "gif", "svg", "ico", "woff", "woff2",
  "ttf", "eot", "map", "json", "txt", "pdf", "mp4", "webm", "webp", "avif"]

/-- `function isStaticAsset(path)`: the path ends (case-insensitively)
in a dot followed by one of the listed extensions. -/
def isStaticAsset (path : String) : Bool :=
  STATIC_EXTS.any (fun ext => strEndsWith (lowerStr path) ("." ++ ext))

/-- One alternative of `/^\/sitemap-(markets|pillars)-\d+\.xml$/`:
the path is `"/sitemap-" ++ t ++ "-" ++ digits ++ ".xml"` with a
nonempty all-digit middle. -/
def shardMatch (t p : String) : Bool :=
  let pre := "/sitemap-" ++ t ++ "-"
  strStartsWith p pre && strEndsWith p ".xml" &&
    (let rest := p.toList.drop pre.length
     let mid := rest.take (rest.length - 4)
     !mid.isEmpty && mid.all Char.isDigit)

/-- The static-shard regex of `middleware.ts`. -/
def isSitemapShard (p : String) : Bool :=
  shardMatch "markets" p || shardMatch "pillars" p

/-- `path.replace(/^\//, '')`. -/
def stripLeadingSlash (p : String) : String :=
  if strStartsWith p "/" then strDrop p 1 else p

/-! Section: HTTP modelling: responses, fetch options, fetch outcomes -/

/-- A fetch/`Response` value: status, headers (in insertion order) and
the text of the body.  Status text, streaming and binary bodies are not
modelled. -/
structure Response where
  status : Nat
  headers : List (String × String)
  body : String
deriving DecidableEq

/-- `Response.ok` of the fetch API: status in the 2xx range. -/
def Response.isOk (r : Response) : Bool := 200 ≤ r.status && r.status < 300

/-- Case-insensitive header lookup (`Headers.prototype.get`; `none`
models `null`). -/
def headerGet (hs : List (String × String)) (name : String) : Option String :=
  (hs.find? (fun p => lowerStr p.1 == lowerStr name)).map Prod.snd

/-- The options object passed to `fetch`.  `RequestInit` has optional
members for cancellation; `signalTimeoutMs = some t` would model passing
`AbortSignal.timeout(t)`, and `none` models an options object without
any `signal` member. -/
structure RequestInit where
  headers : List (String × String)
  signalTimeoutMs : Option Nat
deriving DecidableEq

/-- Result of awaiting a `fetch`: a settled response, or a thrown error
(network failure, or a timeout if a signal had been attached). -/
inductive FetchOutcome where
  | ok (r : Response)
  | thrown
deriving DecidableEq

/-- The middleware's environment bindings. -/
structure Env where
  SUPABASE_URL : String
  SUPABASE_ANON_KEY : String
deriving DecidableEq

/-- Options of the `fetch` to `/functions/v1/script-service`
(`middleware.ts` line 92): only `headers`, no signal. -/
def scriptServiceInit (anonKey : String) : RequestInit :=
  { headers := [("Authorization", "Bearer " ++ anonKey), ("apikey", anonKey)],
    signalTimeoutMs := none }

/-- Options of the `fetch` to `/functions/v1/generate-sitemap`
(`middleware.ts` line 176): only `headers`, no signal. -/
def generateSitemapInit (anonKey : String) : RequestInit :=
  { headers := [("Authorization", "Bearer " ++ anonKey), ("apikey", anonKey)],
    signalTimeoutMs := none }

/-- Options of the `fetch` to `/functions/v1/serve-sitemap`
(`middleware.ts` line 204): only `headers`, no signal. -/
def serveSitemapInit (anonKey : String) : RequestInit :=
  { headers := [("Authorization", "Bearer " ++ anonKey), ("apikey", anonKey)],
    signalTimeoutMs := none }

/-- Options of the `fetch` to `/functions/v1/prerender`
(`middleware.ts` line 232): `headers` with the forwarded UA, no
signal. -/
def prerenderInit (anonKey ua : String) : RequestInit :=
  { headers := [("Authorization", "Bearer " ++ anonKey), ("apikey", anonKey),
                ("User-Agent", ua)],
    signalTimeoutMs := none }

/-- A fetch oracle: what each URL/options pair settles to during the
request under consideration. -/
def FetchOracle := String → RequestInit → FetchOutcome

/-! Section: URL encoding (`encodeURIComponent`) -/

/-- Unreserved punctuation of `encodeURIComponent`. -/
def uriUnreservedMarks : List Char := ['-', '_', '.', '!', '~', '*', '\'', '(', ')']

/-- Uppercase hex digit of `n < 16`. -/
def hexDigit (n : Nat) : Char :=
  if n < 10 then Char.ofNat (48 + n) else Char.ofNat (55 + n)

/-- Percent-encode one character (UTF-8 bytes, uppercase hex). -/
def encodeChar (c : Char) : List Char :=
  if c.isAlphanum || uriUnreservedMarks.contains c then [c]
  else (String.utf8EncodeChar c).flatMap
    (fun b => ['%', hexDigit (b.toNat / 16), hexDigit (b.toNat % 16)])

/-- JS `encodeURIComponent`. -/
def encodeURIComponent (s : String) : String := ⟨(s.toList.map encodeChar).flatten⟩

/-! Section: Script registry cache (`scriptCache`, `CACHE_TTL_MS`, `getScripts`) -/

/-- The module-level `scriptCache` record. -/
structure ScriptCache where
  head : List String
  body : List String
  fetchedAt : Int
deriving DecidableEq

def CACHE_TTL_MS : Int := 5 * 60 * 1000

/-- Shape of the parsed `script-service` JSON
(`{ head: string[]; body: string[] }`); `none` fields model `null`/
`undefined` members, which `data.head || []` coalesces. -/
structure ScriptsJson where
  head : Option (List String)
  body : Option (List String)
deriving DecidableEq

/-- `arr.join('\n')`. -/
def joinN (xs : List String) : String := String.intercalate "\n" xs

/-- The stale-or-empty tail of `getScripts` (`middleware.ts` lines
118–125): serve the previous cache if one exists, else the empty
pair. -/
def staleOrEmpty (st : Option ScriptCache) : (String × String) × Option ScriptCache :=
  match st with
  | some c => ((joinN c.head, joinN c.body), some c)
  | none => (("", ""), none)

/-- The `try { fetch ... }` part of `getScripts` (lines 91–116),
reached when there is no fresh cache.  `parseJson` is the oracle for
`resp.json()` (`none` models a parse that throws, which the `catch`
absorbs). -/
def getScriptsFetch (env : Env) (st : Option ScriptCache) (now : Int)
    (fetchO : FetchOracle) (parseJson : String → Option ScriptsJson) :
    (String × String) × Option ScriptCache :=
  match fetchO (env.SUPABASE_URL ++ "/functions/v1/script-service")
      (scriptServiceInit env.SUPABASE_ANON_KEY) with
  | .ok resp =>
    if Response.isOk resp then
      match parseJson resp.body with
      | some data =>
        let c : ScriptCache :=
          { head := data.head.getD [], body := data.body.getD [], fetchedAt := now }
        ((joinN c.head, joinN c.body), some c)
      | none => staleOrEmpty st
    else staleOrEmpty st
  | .thrown => staleOrEmpty st

/-- `async function getScripts(env)` as a state transformer.  Inputs
beyond the source's arguments: the current `Date.now()`, the fetch
oracle, and the JSON-parse oracle.  Returns the joined head/body pair
and the new `scriptCache`. -/
def getScripts (env : Env) (st : Option ScriptCache) (now : Int)
    (fetchO : FetchOracle) (parseJson : String → Option ScriptsJson) :
    (String × String) × Option ScriptCache :=
  match st with
  | some c =>
    if now - c.fetchedAt < CACHE_TTL_MS then
      ((joinN c.head, joinN c.body), some c)
    else
      getScriptsFetch env st now fetchO parseJson
  | none => getScriptsFetch env st now fetchO parseJson

/-! Section: HTML injector (`injectScripts`) -/

/-- Split `l` around the first (leftmost) occurrence of `pat`:
`some (before, after)` with `l = before ++ pat ++ after` and `before`
shortest, or `none` when `pat` does not occur.  JS
`String.prototype.replace` with a string pattern replaces the leftmost
occurrence only. -/
def splitFirst (pat : List Char) : List Char → Option (List Char × List Char)
  | [] => if pat.isEmpty then some ([], []) else none
  | c :: rest =>
    if pat.isPrefixOf (c :: rest) then some ([], (c :: rest).drop pat.length)
    else
      match splitFirst pat rest with
      | some (a, b) => some (c :: a, b)
      | none => none

/-- `GetSubstitution` of the JS specification, specialised to a string
pattern (which has no capture groups): in the replacement text, `$$`
yields a dollar sign, `$&` the matched substring, a dollar sign
followed by a backquote (character code 96) the portion of the subject
before the match, and a dollar sign followed by an apostrophe the
portion after it; every other character sequence — including `$1` to
`$99`, which have no captures to refer to — is literal. -/
def getSubstitution (matched before after : List Char) : List Char → List Char
  | [] => []
  | c :: rest =>
    if c = '$' then
      match rest with
      | [] => ['$']
      | d :: rest2 =>
        if d = '$' then '$' :: getSubstitution matched before after rest2
        else if d = '&' then matched ++ getSubstitution matched before after rest2
        else if d.toNat = 96 then before ++ getSubstitution matched before after rest2
        else if d = '\'' then after ++ getSubstitution matched before after rest2
        else '$' :: d :: getSubstitution matched before after rest2
    else c :: getSubstitution matched before after rest

/-- JS `String.prototype.replace` with a string pattern and a string
replacement: substitute at the first occurrence only, applying the
replacement-pattern substitution to the replacement text; when the
pattern does not occur the list is returned unchanged. -/
def jsReplaceFirstList (pat rep l : List Char) : List Char :=
  match splitFirst pat l with
  | some (a, b) => a ++ getSubstitution pat a b rep ++ b
  | none => l

/-- JS `s.replace(pat, rep)` on strings. -/
def jsReplaceFirst (s pat rep : String) : String :=
  ⟨jsReplaceFirstList pat.toList rep.toList s.toList⟩

/-- `function injectScripts(html, scripts)` (`middleware.ts` lines
131–139): insert before the first `</head>` / `</body>` when the
corresponding joined fragment string is truthy (non-empty). -/
def injectScripts (html : String) (scripts : String × String) : String :=
  let h1 := if scripts.1 ≠ "" then
    jsReplaceFirst html "</head>" (scripts.1 ++ "\n</head>") else html
  if scripts.2 ≠ "" then
    jsReplaceFirst h1 "</body>" (scripts.2 ++ "\n</body>") else h1

/-! Section: Edge dispatcher (`onRequest`, middleware variant 2.0.0) -/

/-- JSON string escaping (quote and backslash; control-character
escapes are not modelled — no input the handler serializes contains
them). -/
def jsonEscapeChar (c : Char) : List Char :=
  if c = '\\' then ['\\', '\\'] else if c = '"' then ['\\', '"'] else [c]

def jsonEscape (s : String) : String := ⟨(s.toList.map jsonEscapeChar).flatten⟩

def jsonStr (s : String) : String := "\"" ++ jsonEscape s ++ "\""

def jsonBool (b : Bool) : String := if b then "true" else "false"

/-- `Math.round(x / y)` for integer `x` and positive integer `y`
(round half toward positive infinity). -/
def jsRoundDiv (x y : Int) : Int := Int.fdiv (2 * x + y) (2 * y)

/-- `scriptCacheAge` field of the debug payload. -/
def scriptCacheAge (st : Option ScriptCache) (now : Int) : String :=
  match st with
  | some c => toString (jsRoundDiv (now - c.fetchedAt) 1000) ++ "s"
  | none => "cold"

/-- Body of the `/__debug` response: `JSON.stringify(..., null, 2)` of
the diagnostic object, in source field order. -/
def debugBody (env : Env) (hostname ua : String) (st : Option ScriptCache)
    (now : Int) (nowIso : String) : String :=
  "\x7b\n  \"middleware\": \"pages-middleware\",\n  \"version\": \"2.0.0\"," ++
  "\n  \"hasSupabaseUrl\": " ++ jsonBool (env.SUPABASE_URL ≠ "") ++
  ",\n  \"hasSupabaseKey\": " ++ jsonBool (env.SUPABASE_ANON_KEY ≠ "") ++
  ",\n  \"hostname\": " ++ jsonStr hostname ++
  ",\n  \"userAgent\": " ++ jsonStr (strTake ua 80) ++
  ",\n  \"isBot\": " ++ jsonBool (isBot ua) ++
  ",\n  \"scriptCacheAge\": " ++ jsonStr (scriptCacheAge st now) ++
  ",\n  \"timestamp\": " ++ jsonStr nowIso ++ "\n\x7d"

/-- The `/__debug` response. -/
def debugResponse (env : Env) (hostname ua : String) (st : Option ScriptCache)
    (now : Int) (nowIso : String) : Response :=
  { status := 200,
    headers := [("Content-Type", "application/json")],
    body := debugBody env hostname ua st now nowIso }

/-- `Object.fromEntries(headers.entries())`: `Headers` iteration yields
lowercased header names. -/
def fromEntriesLower (hs : List (String × String)) : List (String × String) :=
  hs.map (fun p => (lowerStr p.1, p.2))

/-- JS object update `{...o, k: v}` restricted to the keys involved: an
existing (case-sensitively equal) key is overwritten in place, a new
key is appended. -/
def objSet (o : List (String × String)) (k v : String) : List (String × String) :=
  if o.any (fun p => p.1 = k) then
    o.map (fun p => if p.1 = k then (k, v) else p)
  else o ++ [(k, v)]

/-- The shared tail of `onRequest` (lines 257–274): serve the origin
SPA response, injecting scripts when its content type is HTML. -/
def spaTail (scripts : String × String) (resp : Response) : Response :=
  let contentType := jsOrDefault (headerGet resp.headers "Content-Type") ""
  if ¬ (jsIncludes contentType "text/html" = true) then resp
  else
    { status := resp.status,
      headers := objSet (fromEntriesLower resp.headers) "X-Scripts-Injected" "true",
      body := injectScripts resp.body scripts }

/-- The dynamic-sitemap branch (lines 172–198): `some r` when the
branch returns, `none` when control falls through. -/
def dynamicSitemapBranch (env : Env) (path : String) (fetchO : FetchOracle) :
    Option Response :=
  if path = "/sitemap-markets.xml" || path = "/sitemap-pillars.xml" then
    let ty := if jsIncludes path "markets" then "markets" else "pillars"
    match fetchO (env.SUPABASE_URL ++ "/functions/v1/generate-sitemap?type=" ++ ty)
        (generateSitemapInit env.SUPABASE_ANON_KEY) with
    | .ok resp =>
      if Response.isOk resp then
        some { status := 200,
               headers := [("Content-Type", "application/xml; charset=utf-8"),
                           ("Cache-Control", "public, max-age=3600, s-maxage=86400"),
                           ("X-Sitemap-Source", "supabase")],
               body := resp.body }
      else none
    | .thrown => none
  else none

/-- The static-shard sitemap branch (lines 200–226). -/
def staticSitemapBranch (env : Env) (path : String) (fetchO : FetchOracle) :
    Option Response :=
  if isSitemapShard path || path = "/sitemap-index.xml" then
    let filename := stripLeadingSlash path
    match fetchO (env.SUPABASE_URL ++ "/functions/v1/serve-sitemap?file=" ++
        encodeURIComponent filename) (serveSitemapInit env.SUPABASE_ANON_KEY) with
    | .ok resp =>
      if Response.isOk resp then
        some { status := 200,
               headers := [("Content-Type", "application/xml; charset=utf-8"),
                           ("Cache-Control", "public, max-age=1800, s-maxage=3600"),
                           ("X-Sitemap-Source", "supabase-static")],
               body := resp.body }
      else none
    | .thrown => none
  else none

/-- The bot prerender branch (lines 228–255). -/
def botBranch (env : Env) (path ua : String) (scripts : String × String)
    (fetchO : FetchOracle) : Option Response :=
  if isBot ua then
    match fetchO (env.SUPABASE_URL ++ "/functions/v1/prerender?path=" ++
        encodeURIComponent path) (prerenderInit env.SUPABASE_ANON_KEY ua) with
    | .ok res =>
      if Response.isOk res then
        some { status := 200,
               headers := [("Content-Type", "text/html; charset=utf-8"),
                           ("X-Prerendered", "true"),
                           ("X-Scripts-Injected", "true"),
                           ("X-Cache", jsOrDefault (headerGet res.headers "X-Cache") "hit"),
                           ("Cache-Control", "public, max-age=3600")],
               body := injectScripts res.body scripts }
      else none
    | .thrown => none
  else none

/-- `export const onRequest` of `middleware.ts` (variant 2.0.0, lines
141–274) as a function of the request (`hostname`, `path`, `ua`), the
isolate state (`st`, the module-level `scriptCache`), the clock, the
fetch and JSON oracles, and the origin response `nextResp` that
`next()` resolves to.  Returns the outgoing response and the new
isolate state. -/
def onRequest (env : Env) (st : Option ScriptCache) (now : Int)
    (hostname path ua : String) (fetchO : FetchOracle)
    (parseJson : String → Option ScriptsJson) (nextResp : Response)
    (nowIso : String) : Response × Option ScriptCache :=
  if isStaticAsset path then (nextResp, st)
  else if path = "/__debug" then (debugResponse env hostname ua st now nowIso, st)
  else
    let gs := getScripts env st now fetchO parseJson
    let scripts := gs.1
    let st' := gs.2
    match dynamicSitemapBranch env path fetchO with
    | some r => (r, st')
    | none =>
      match staticSitemapBranch env path fetchO with
      | some r => (r, st')
      | none =>
        match botBranch env path ua scripts fetchO with
        | some r => (r, st')
        | none => (spaTail scripts nextResp, st')

/-! Section: Prerender edge function (cache lookup backend,
`supabase/functions/prerender/index.ts`) -/

/-- One row of `prerendered_pages` as selected by the handler
(`html, expires_at, hit_count`); optional fields model SQL `NULL`. -/
structure PrerenderRow where
  html : String
  expires_at : Option Int
  hit_count : Option Nat
deriving DecidableEq

/-- The edge function's `corsHeaders`. -/
def prerenderCors : List (String × String) :=
  [("Access-Control-Allow-Origin", "*"),
   ("Access-Control-Allow-Headers", "authorization, x-client-info, apikey, content-type")]

/-- Output of one invocation of the prerender handler: the HTTP
response, and the fire-and-forget hit-count update — `some (v, ok)`
records that an unawaited `update` of `hit_count` to `v` was issued and
later settled with outcome `ok`; `none` means no update was issued. -/
structure PrerenderOutput where
  response : Response
  increment : Option (Nat × Bool)
deriving DecidableEq

/-- The cache-miss 404 of the prerender handler. -/
def prerenderMiss (path : String) : PrerenderOutput :=
  { response :=
      { status := 404,
        headers := prerenderCors ++
          [("Content-Type", "application/json"), ("X-Cache", "miss")],
        body := "\x7b\"error\":\"not_cached\",\"path\":" ++ jsonStr path ++ "\x7d" },
    increment := none }

/-- The `Deno.serve` handler of the prerender edge function.  `lookup`
is the outcome of the awaited Supabase select: `Except.error msg`
models a thrown error reaching the outer `catch` (whose message
serializes as `msg`); `Except.ok none` covers both an absent row and a
select that reports an error object (the code only logs the error and
then finds `cached` null); `Except.ok (some row)` is a returned row.
`incrementOutcome` is how the detached `update` promise settles; the
source discards it with `.then(() => {})`. -/
def prerenderHandler (method path : String)
    (lookup : Except String (Option PrerenderRow)) (now : Int)
    (incrementOutcome : Bool) : PrerenderOutput :=
  if method = "OPTIONS" then
    { response := { status := 200, headers := prerenderCors, body := "" },
      increment := none }
  else
    match lookup with
    | .error msg =>
      { response :=
          { status := 500,
            headers := prerenderCors ++ [("Content-Type", "application/json")],
            body := "\x7b\"error\":" ++ jsonStr msg ++ "\x7d" },
        increment := none }
    | .ok cached =>
      match cached with
      | some row =>
        if row.html ≠ "" then
          let isExpired : Bool :=
            match row.expires_at with
            | some t => decide (t < now)
            | none => false
          { response :=
              { status := 200,
                headers := prerenderCors ++
                  [("Content-Type", "text/html; charset=utf-8"),
                   ("X-Prerendered", "true"),
                   ("X-Cache", if isExpired then "stale" else "hit"),
                   ("Cache-Control", "public, max-age=3600, s-maxage=86400")],
                body := row.html },
            increment := some (row.hit_count.getD 0 + 1, incrementOutcome) }
        else prerenderMiss path
      | none => prerenderMiss path

/-! Section: Concrete fixtures for instantiated runs -/

/-- A sample environment. -/
def sampleEnv : Env :=
  { SUPABASE_URL := "https://example.supabase.co", SUPABASE_ANON_KEY := "anon-key" }

/-- The minimal valid empty urlset document named by the specification
(the body `serve-sitemap` attaches to its 404). -/
def EMPTY_URLSET : String :=
  "<?xml version=\"1.0\" encoding=\"UTF-8\"?><urlset xmlns=\"http://www.sitemaps.org/schemas/sitemap/0.9\"></urlset>"

/-- A backend oracle whose every call fails by throwing. -/
def thrownFetch : FetchOracle := fun _ _ => FetchOutcome.thrown

/-- A backend oracle that answers the static-sitemap lookup with the
404-plus-empty-urlset response the specification describes for
`serve-sitemap`, and throws on every other call. -/
def serve404Fetch : FetchOracle := fun url _ =>
  if jsIncludes url "serve-sitemap" then
    FetchOutcome.ok
      (Response.mk 404 [("Content-Type", "application/xml; charset=utf-8")] EMPTY_URLSET)
  else FetchOutcome.thrown

/-- A concrete origin SPA response. -/
def spaResponse : Response :=
  { status := 200, headers := [("Content-Type", "text/html")],
    body := "<html><head></head><body>SPA</body></html>" }

/-! Section: Supporting lemmas -/

theorem containsSub_iff (sub l : List Char) : containsSub sub l = true ↔ sub <:+: l := by
  induction l with
  | nil =>
    simp only [containsSub, List.isEmpty_iff]
    constructor
    · rintro rfl
      exact List.infix_refl []
    · intro h
      exact List.eq_nil_of_infix_nil h
  | cons c rest ih =>
    simp only [containsSub, Bool.or_eq_true, List.isPrefixOf_iff_prefix, ih]
    constructor
    · rintro (h | h)
      · exact List.IsPrefix.isInfix h
      · exact List.infix_cons h
    · intro h
      exact ( List.infix_cons_iff).mp h

theorem splitFirst_none_of_no_occurrence (pat l : List Char) (h : ¬ (pat <:+: l)) :
    splitFirst pat l = none := by
  induction l with
  | nil =>
    have hne : ¬ pat.isEmpty := by
      intro he
      exact h (by simp [List.isEmpty_iff.mp he])
    simp [splitFirst, hne]
  | cons c rest ih =>
    have hp : ¬ pat.isPrefixOf (c :: rest) = true := by
      intro hp
      exact h ( List.IsPrefix.isInfix ( List.isPrefixOf_iff_prefix.mp hp))
    have hr : ¬ (pat <:+: rest) := fun hr => h (List.infix_cons hr)
    simp [splitFirst, hp, ih hr]

theorem jsReplaceFirst_of_no_occurrence (pat rep l : List Char) (h : ¬ (pat <:+: l)) :
    jsReplaceFirstList pat rep l = l := by
  unfold jsReplaceFirstList
  rw [splitFirst_none_of_no_occurrence pat l h]

theorem splitFirst_prefix_case (pat b : List Char) :
    splitFirst pat (pat ++ b) = some ([], b) := by
  cases pat with
  | nil =>
    cases b with
    | nil => simp [splitFirst]
    | cons c rest => simp [splitFirst]
  | cons p ps =>
    have hpre : List.isPrefixOf (p :: ps) (p :: (ps ++ b)) = true := by
      rw [ List.isPrefixOf_iff_prefix]
      exact List.prefix_append _ _
    have hdrop : (p :: (ps ++ b)).drop (p :: ps).length = b := by
      show ((p :: ps) ++ b).drop (p :: ps).length = b
      exact List.drop_left _ _
    show splitFirst (p :: ps) (p :: (ps ++ b)) = some ([], b)
    simp only [splitFirst]
    rw [if_pos hpre, hdrop]

theorem splitFirst_first_occurrence (pat : List Char) :
    ∀ (l a b : List Char), l = a ++ pat ++ b →
      (∀ a' b', l = a' ++ pat ++ b' → a.length ≤ a'.length) →
      splitFirst pat l = some (a, b) := by
  intro l a
  induction a generalizing l with
  | nil =>
    intro b hl _
    subst hl
    simpa using splitFirst_prefix_case pat b
  | cons x a' ih =>
    intro b hl hmin
    subst hl
    have hnp : ¬ List.isPrefixOf pat (x :: (a' ++ pat ++ b)) = true := by
      intro hp
      rcases List.isPrefixOf_iff_prefix.mp hp with ⟨t, ht⟩
      have := hmin [] t (by simpa using ht.symm)
      simp at this
    have ihres := ih (a' ++ pat ++ b) b rfl (by
      intro a'' b'' he
      have := hmin (x :: a'') b'' (by simp [he])
      simpa using this)
    show splitFirst pat (x :: (a' ++ pat ++ b)) = some (x :: a', b)
    simp only [splitFirst]
    rw [if_neg hnp, ihres]

theorem jsReplaceFirst_first_occurrence (pat rep : List Char) (l a b : List Char)
    (hdec : l = a ++ pat ++ b)
    (hmin : ∀ a' b', l = a' ++ pat ++ b' → a.length ≤ a'.length) :
    jsReplaceFirstList pat rep l = a ++ getSubstitution pat a b rep ++ b := by
  unfold jsReplaceFirstList
  rw [splitFirst_first_occurrence pat l a b hdec hmin]

theorem getSubstitution_no_dollar (matched before after rep : List Char)
    (h : '$' ∉ rep) : getSubstitution matched before after rep = rep := by
  induction rep with
  | nil => rfl
  | cons c rest ih =>
    have hc : ¬ c = '$' := by
      intro he
      exact h (he ▸ List.mem_cons_self c rest)
    have hrest : '$' ∉ rest := fun hm => h (List.mem_cons_of_mem c hm)
    rw [getSubstitution.eq_def]
    simp only [if_neg hc]
    rw [ih hrest]

theorem char_toNat_ofNat_valid {n : Nat} (h : n < 55296) : (Char.ofNat n).toNat = n := by
  rw [Char.ofNat, dif_pos (Or.inl h)]
  rfl

theorem charToLower_toNat (c : Char) :
    (Char.toLower c).toNat =
      if 65 ≤ c.toNat ∧ c.toNat ≤ 90 then c.toNat + 32 else c.toNat := by
  simp only [Char.toLower]
  by_cases h : 65 ≤ c.toNat ∧ c.toNat ≤ 90
  · rw [if_pos ?side, if_pos h, char_toNat_ofNat_valid (by omega)]
    exact ⟨h.1, h.2⟩
  · rw [if_neg ?side2, if_neg h]
    intro hc
    exact h ⟨hc.1, hc.2⟩

theorem charToLower_not_upper (c : Char) :
    ¬ (65 ≤ (Char.toLower c).toNat ∧ (Char.toLower c).toNat ≤ 90) := by
  have := charToLower_toNat c
  by_cases h : 65 ≤ c.toNat ∧ c.toNat ≤ 90
  · rw [if_pos h] at this
    omega
  · rw [if_neg h] at this
    omega

theorem charToLower_idem (c : Char) : Char.toLower (Char.toLower c) = Char.toLower c := by
  have h := charToLower_not_upper c
  simp only [Char.toLower]
  rw [if_neg]
  intro hc
  exact h ⟨hc.1, hc.2⟩

theorem lowerStr_toList (s : String) : (lowerStr s).toList = s.toList.map Char.toLower := rfl

theorem lowerStr_idem (s : String) : lowerStr (lowerStr s) = lowerStr s := by
  have : (lowerStr s).toList.map Char.toLower = (lowerStr s).toList := by
    rw [lowerStr_toList, List.map_map]
    exact List.map_congr_left fun c _ => charToLower_idem c
  show (⟨(lowerStr s).toList.map Char.toLower⟩ : String) = lowerStr s
  rw [this]
  rfl

theorem headerGet_fromEntriesLower (hs : List (String × String)) (name : String) :
    headerGet (fromEntriesLower hs) name = headerGet hs name := by
  simp only [headerGet, fromEntriesLower, List.find?_map]
  have hpred : ((fun p => lowerStr p.1 == lowerStr name) ∘
      fun p : String × String => (lowerStr p.1, p.2)) =
      fun p : String × String => lowerStr p.1 == lowerStr name := by
    funext p
    simp [Function.comp, lowerStr_idem]
  rw [hpred]
  cases hfind : hs.find? (fun p => lowerStr p.1 == lowerStr name) with
  | none => simp
  | some p => simp


theorem string_eq_empty_iff (s : String) : s = "" ↔ s.toList = [] := by
  obtain ⟨l⟩ := s
  constructor
  · intro h
    rw [h]
    rfl
  · intro h
    have hl : l = [] := h
    rw [hl]

/-! Section: Claim theorems -/

/-- C4: `isBot` returns `true` if and only if the lowercased User-Agent
string contains at least one substring from the fixed `BOT_AGENTS`
list; in particular it returns `true` for any string containing a known
bot substring in any case combination (any `v` whose lowercasing is a
listed agent), and `false` for the empty string and for any string
containing none of the substrings. -/
theorem isBot_iff_lower_contains :
    (∀ ua : String, isBot ua = true ↔ ∃ b ∈ BOT_AGENTS, b.toList <:+: (lowerStr ua).toList)
    ∧ isBot "" = false
    ∧ (∀ ua v b : String, b ∈ BOT_AGENTS → lowerStr v = b →
        v.toList <:+: ua.toList → isBot ua = true) := by
  have hne : ∀ b ∈ BOT_AGENTS, b.toList ≠ [] := by decide
  have hmain : ∀ ua : String, isBot ua = true ↔
      ∃ b ∈ BOT_AGENTS, b.toList <:+: (lowerStr ua).toList := by
    intro ua
    by_cases hua : ua = ""
    · subst hua
      have h0 : isBot "" = false := by decide
      rw [h0]
      simp only [Bool.false_eq_true, false_iff]
      rintro ⟨b, hb, hinf⟩
      have : b.toList = [] := List.eq_nil_of_infix_nil hinf
      exact hne b hb this
    · simp only [isBot, if_neg hua, List.any_eq_true, jsIncludes]
      constructor
      · rintro ⟨b, hb, hc⟩
        exact ⟨b, hb, (containsSub_iff _ _).mp hc⟩
      · rintro ⟨b, hb, hinf⟩
        exact ⟨b, hb, (containsSub_iff _ _).mpr hinf⟩
  refine ⟨hmain, by decide, ?_⟩
  intro ua v b hb hlow hinf
  refine (hmain ua).mpr ⟨b, hb, ?_⟩
  rw [lowerStr_toList, ← hlow, lowerStr_toList]
  exact List.IsInfix.map Char.toLower hinf

/-- Witness for C4: the classifier evaluated through the theorem at
concrete User-Agents. -/
theorem isBot_iff_lower_contains_witness :
    isBot "GoogleBot/2.1" = true ∧ isBot "" = false ∧ isBot "Mozilla/5.0" = false := by
  refine ⟨?_, isBot_iff_lower_contains.2.1, ?_⟩
  · exact (isBot_iff_lower_contains.1 "GoogleBot/2.1").mpr ⟨"googlebot", by decide, by decide⟩
  · cases hc : isBot "Mozilla/5.0" with
    | false => rfl
    | true =>
      have hb := (isBot_iff_lower_contains.1 "Mozilla/5.0").mp hc
      exact absurd hb (by decide)

theorem occurrence_min_of_no_earlier (pat l : List Char) (n : Nat)
    (hno : ∀ k, k < n → ¬ List.isPrefixOf pat (l.drop k) = true) :
    ∀ a' b', l = a' ++ pat ++ b' → n ≤ a'.length := by
  intro a' b' h
  by_contra hlt
  push_neg at hlt
  apply hno a'.length hlt
  rw [ List.isPrefixOf_iff_prefix, h, List.append_assoc, List.drop_left]
  exact List.prefix_append _ _

theorem toList_jsReplaceFirst (s pat rep : String) :
    (jsReplaceFirst s pat rep).toList = jsReplaceFirstList pat.toList rep.toList s.toList := rfl

/-- C7 counterexample: at the concrete document
`"<html><head></head></html>"` and head fragment `"$&"`, the injector
does not insert the fragment verbatim before the first closing head
tag: JS replacement-pattern substitution turns `$&` into the matched
`</head>`, so the program's output differs from the insertion the claim
requires. -/
theorem injectScripts_dollar_counterexample :
    injectScripts "<html><head></head></html>" ("$&", "") =
      "<html><head></head>\n</head></html>" ∧
    ¬ (injectScripts "<html><head></head></html>" ("$&", "") =
        "<html><head>$&\n</head></html>") := by
  exact ⟨by decide, by decide⟩

/-- C7 amended: the injector applies the JS replacement-pattern
substitution to the interpolated fragment text; for every fragment free
of the dollar character it inserts the head fragment string immediately
before the first occurrence of `</head>` and the body fragment string
immediately before the first occurrence of `</body>` — as a single
substitution at the first occurrence only, also when both fragments are
non-empty (the body insertion landing at the first `</body>` of the
head-injected document); an empty fragment string leaves the
corresponding section unchanged, and when the closing tag is absent the
document is left byte-for-byte unchanged, with no error. -/
theorem injectScripts_spec :
    (∀ (html frag : String) (a b : List Char), frag ≠ "" → '$' ∉ frag.toList →
       html.toList = a ++ "</head>".toList ++ b →
       (∀ a' b', html.toList = a' ++ "</head>".toList ++ b' → a.length ≤ a'.length) →
       (injectScripts html (frag, "")).toList =
         a ++ (frag.toList ++ "\n</head>".toList) ++ b)
    ∧ (∀ (html frag : String) (a b : List Char), frag ≠ "" → '$' ∉ frag.toList →
       html.toList = a ++ "</body>".toList ++ b →
       (∀ a' b', html.toList = a' ++ "</body>".toList ++ b' → a.length ≤ a'.length) →
       (injectScripts html ("", frag)).toList =
         a ++ (frag.toList ++ "\n</body>".toList) ++ b)
    ∧ (∀ (html hs bs : String) (a b c d : List Char),
       hs ≠ "" → bs ≠ "" → '$' ∉ hs.toList → '$' ∉ bs.toList →
       html.toList = a ++ "</head>".toList ++ b →
       (∀ a' b', html.toList = a' ++ "</head>".toList ++ b' → a.length ≤ a'.length) →
       a ++ hs.toList ++ "\n</head>".toList ++ b = c ++ "</body>".toList ++ d →
       (∀ c' d', a ++ hs.toList ++ "\n</head>".toList ++ b = c' ++ "</body>".toList ++ d' →
         c.length ≤ c'.length) →
       (injectScripts html (hs, bs)).toList =
         c ++ (bs.toList ++ "\n</body>".toList) ++ d)
    ∧ (∀ html : String, injectScripts html ("", "") = html)
    ∧ (∀ (html frag : String), ¬ ("</head>".toList <:+: html.toList) →
       injectScripts html (frag, "") = html)
    ∧ (∀ (html frag : String), ¬ ("</body>".toList <:+: html.toList) →
       injectScripts html ("", frag) = html) := by
  have hempty : ∀ html : String, injectScripts html ("", "") = html := by
    intro html
    simp [injectScripts]
  have hnodollar : ∀ (frag tag : String), '$' ∉ frag.toList → '$' ∉ tag.toList →
      '$' ∉ (frag ++ tag).toList := by
    intro frag tag hf ht hm
    have hm' : '$' ∈ frag.toList ++ tag.toList := hm
    rcases List.mem_append.mp hm' with hm2 | hm2
    · exact hf hm2
    · exact ht hm2
  refine ⟨?_, ?_, ?_, hempty, ?_, ?_⟩
  · intro html frag a b hfrag hdollar hdec hmin
    have h1 : injectScripts html (frag, "") =
        jsReplaceFirst html "</head>" (frag ++ "\n</head>") := by
      simp [injectScripts, hfrag]
    rw [h1, toList_jsReplaceFirst,
      jsReplaceFirst_first_occurrence _ _ html.toList a b hdec hmin,
      getSubstitution_no_dollar _ _ _ _ (hnodollar frag "\n</head>" hdollar (by decide))]
    rfl
  · intro html frag a b hfrag hdollar hdec hmin
    have h1 : injectScripts html ("", frag) =
        jsReplaceFirst html "</body>" (frag ++ "\n</body>") := by
      simp [injectScripts, hfrag]
    rw [h1, toList_jsReplaceFirst,
      jsReplaceFirst_first_occurrence _ _ html.toList a b hdec hmin,
      getSubstitution_no_dollar _ _ _ _ (hnodollar frag "\n</body>" hdollar (by decide))]
    rfl
  · intro html hs bs a b c d hhs hbs hdh hdb hdec hmin hdec2 hmin2
    have hstep : injectScripts html (hs, bs) =
        jsReplaceFirst (jsReplaceFirst html "</head>" (hs ++ "\n</head>"))
          "</body>" (bs ++ "\n</body>") := by
      simp [injectScripts, hhs, hbs]
    have hL1 : (jsReplaceFirst html "</head>" (hs ++ "\n</head>")).toList =
        a ++ hs.toList ++ "\n</head>".toList ++ b := by
      rw [toList_jsReplaceFirst,
        jsReplaceFirst_first_occurrence _ _ html.toList a b hdec hmin,
        getSubstitution_no_dollar _ _ _ _ (hnodollar hs "\n</head>" hdh (by decide))]
      show a ++ (hs.toList ++ "\n</head>".toList) ++ b =
        a ++ hs.toList ++ "\n</head>".toList ++ b
      simp [List.append_assoc]
    rw [hstep, toList_jsReplaceFirst, hL1,
      jsReplaceFirst_first_occurrence _ _ _ c d hdec2 hmin2,
      getSubstitution_no_dollar _ _ _ _ (hnodollar bs "\n</body>" hdb (by decide))]
    rfl
  · intro html frag hni
    by_cases hfrag : frag = ""
    · subst hfrag
      exact hempty html
    · have h1 : injectScripts html (frag, "") =
          jsReplaceFirst html "</head>" (frag ++ "\n</head>") := by
        simp [injectScripts, hfrag]
      rw [h1]
      show (⟨jsReplaceFirstList "</head>".toList (frag ++ "\n</head>").toList
        html.toList⟩ : String) = html
      rw [jsReplaceFirst_of_no_occurrence _ _ _ hni]
      rfl
  · intro html frag hni
    by_cases hfrag : frag = ""
    · subst hfrag
      exact hempty html
    · have h1 : injectScripts html ("", frag) =
          jsReplaceFirst html "</body>" (frag ++ "\n</body>") := by
        simp [injectScripts, hfrag]
      rw [h1]
      show (⟨jsReplaceFirstList "</body>".toList (frag ++ "\n</body>").toList
        html.toList⟩ : String) = html
      rw [jsReplaceFirst_of_no_occurrence _ _ _ hni]
      rfl

/-- Witness for C7 (amended): a concrete document receiving both a head
and a body fragment at the first occurrence of each closing tag, and a
concrete tag-free document left unchanged. -/
theorem injectScripts_spec_witness :
    (injectScripts "<html><head></head><body>x</body></html>" ("<s1>", "<s2>")).toList =
      "<html><head><s1>\n</head><body>x".toList ++
        ("<s2>".toList ++ "\n</body>".toList) ++ "</html>".toList ∧
    injectScripts "<div>no tags</div>" ("<s>", "") = "<div>no tags</div>" := by
  constructor
  · refine injectScripts_spec.2.2.1 "<html><head></head><body>x</body></html>" "<s1>" "<s2>"
      "<html><head>".toList "<body>x</body></html>".toList
      "<html><head><s1>\n</head><body>x".toList "</html>".toList
      (by decide) (by decide) (by decide) (by decide) (by decide) ?_ (by decide) ?_
    · exact occurrence_min_of_no_earlier _ _ 12 (by decide)
    · exact occurrence_min_of_no_earlier _ _ 31 (by decide)
  · exact injectScripts_spec.2.2.2.2.1 "<div>no tags</div>" "<s>" (by decide)

/-- C5: for every page lookup whose stored entry has non-empty `html`,
the prerender backend responds 200 with the stored HTML body in all
cases, with cache state `hit` when the entry has no `expires_at` or its
`expires_at` is in the future, and `stale` when `expires_at` is in the
past. -/
theorem prerenderHandler_hit_stale (method path : String) (row : PrerenderRow)
    (now : Int) (inc : Bool) (hm : method ≠ "OPTIONS") (hhtml : row.html ≠ "") :
    (prerenderHandler method path (.ok (some row)) now inc).response.status = 200 ∧
    (prerenderHandler method path (.ok (some row)) now inc).response.body = row.html ∧
    (row.expires_at = none →
      headerGet (prerenderHandler method path (.ok (some row)) now inc).response.headers
        "X-Cache" = some "hit") ∧
    (∀ t, row.expires_at = some t → now < t →
      headerGet (prerenderHandler method path (.ok (some row)) now inc).response.headers
        "X-Cache" = some "hit") ∧
    (∀ t, row.expires_at = some t → t < now →
      headerGet (prerenderHandler method path (.ok (some row)) now inc).response.headers
        "X-Cache" = some "stale") := by
  simp only [prerenderHandler, if_neg hm, if_pos hhtml]
  refine ⟨trivial, trivial, ?_, ?_, ?_⟩
  · intro hnone
    rw [hnone]
    rfl
  · intro t ht hlt
    rw [ht]
    have : decide (t < now) = false := by
      simp only [decide_eq_false_iff_not]
      omega
    simp only [this]
    rfl
  · intro t ht hlt
    rw [ht]
    have : decide (t < now) = true := by
      simp only [decide_eq_true_eq]
      omega
    simp only [this]
    rfl

/-- Witness for C5: a concrete unexpired entry served as `hit` and a
concrete expired entry served as `stale`, both status 200. -/
theorem prerenderHandler_hit_stale_witness :
    (prerenderHandler "GET" "/about"
      (Except.ok (some (PrerenderRow.mk "<html>hi</html>" none (some 3)))) 1000
      true).response.status = 200 ∧
    headerGet (prerenderHandler "GET" "/about"
      (Except.ok (some (PrerenderRow.mk "<html>hi</html>" none (some 3)))) 1000
      true).response.headers "X-Cache" = some "hit" ∧
    headerGet (prerenderHandler "GET" "/about"
      (Except.ok (some (PrerenderRow.mk "<html>hi</html>" (some (-5)) none))) 1000
      true).response.headers "X-Cache" = some "stale" := by
  have h1 := prerenderHandler_hit_stale "GET" "/about"
    (PrerenderRow.mk "<html>hi</html>" none (some 3)) 1000 true (by decide) (by decide)
  have h2 := prerenderHandler_hit_stale "GET" "/about"
    (PrerenderRow.mk "<html>hi</html>" (some (-5)) none) 1000 true (by decide) (by decide)
  exact ⟨h1.1, h1.2.2.1 rfl, h2.2.2.2.2 (-5) rfl (by omega)⟩

/-- C9: the hit-count increment is detached — the response of the
prerender handler (status, headers and body alike) is identical
whatever way the unawaited update settles, and even the attempted
update value is unaffected: the outcome is discarded at the update's
own boundary and never reaches the caller's control flow. -/
theorem prerenderHandler_fire_and_forget (method path : String)
    (lookup : Except String (Option PrerenderRow)) (now : Int) (o1 o2 : Bool) :
    (prerenderHandler method path lookup now o1).response =
      (prerenderHandler method path lookup now o2).response ∧
    (prerenderHandler method path lookup now o1).increment.map Prod.fst =
      (prerenderHandler method path lookup now o2).increment.map Prod.fst := by
  by_cases hm : method = "OPTIONS"
  · simp [prerenderHandler, hm]
  · cases lookup with
    | error msg => simp [prerenderHandler, hm]
    | ok cached =>
      cases cached with
      | none => simp [prerenderHandler, hm]
      | some row =>
        by_cases hh : row.html ≠ "" <;> simp [prerenderHandler, hm, hh]

theorem getScriptsFetch_fails (env : Env) (st : Option ScriptCache) (now : Int)
    (fetchO : FetchOracle) (parseJson : String → Option ScriptsJson)
    (hfail : ∀ resp, fetchO (env.SUPABASE_URL ++ "/functions/v1/script-service")
        (scriptServiceInit env.SUPABASE_ANON_KEY) = .ok resp →
        Response.isOk resp = false ∨ parseJson resp.body = none) :
    getScriptsFetch env st now fetchO parseJson = staleOrEmpty st := by
  unfold getScriptsFetch
  cases hout : fetchO (env.SUPABASE_URL ++ "/functions/v1/script-service")
      (scriptServiceInit env.SUPABASE_ANON_KEY) with
  | thrown => rfl
  | ok resp =>
    rcases hfail resp hout with hnok | hparse
    · simp [hnok]
    · cases hok : Response.isOk resp with
      | false => simp [hok]
      | true => simp [hok, hparse]

/-- C6: `getScripts` serves a fresh cache (younger than the 5-minute
TTL) without consulting the backend (the oracles are arbitrary and the
result mentions neither); otherwise it attempts a fetch, and on success
replaces the stored value and timestamp and returns the new value; on
failure (thrown fetch, non-2xx response, or unparsable body) it returns
the previously stored value if one exists, and the empty pair if no
prior successful fetch exists. -/
theorem getScripts_policy :
    (∀ (env : Env) (c : ScriptCache) (now : Int) (fetchO : FetchOracle)
        (parseJson : String → Option ScriptsJson),
       now - c.fetchedAt < CACHE_TTL_MS →
       getScripts env (some c) now fetchO parseJson = ((joinN c.head, joinN c.body), some c))
    ∧ (∀ (env : Env) (st : Option ScriptCache) (now : Int) (fetchO : FetchOracle)
        (parseJson : String → Option ScriptsJson) (resp : Response) (data : ScriptsJson),
       (st = none ∨ ∃ c, st = some c ∧ ¬ (now - c.fetchedAt < CACHE_TTL_MS)) →
       fetchO (env.SUPABASE_URL ++ "/functions/v1/script-service")
         (scriptServiceInit env.SUPABASE_ANON_KEY) = .ok resp →
       Response.isOk resp = true →
       parseJson resp.body = some data →
       getScripts env st now fetchO parseJson =
         ((joinN (data.head.getD []), joinN (data.body.getD [])),
          some { head := data.head.getD [], body := data.body.getD [], fetchedAt := now }))
    ∧ (∀ (env : Env) (c : ScriptCache) (now : Int) (fetchO : FetchOracle)
        (parseJson : String → Option ScriptsJson),
       (∀ resp, fetchO (env.SUPABASE_URL ++ "/functions/v1/script-service")
           (scriptServiceInit env.SUPABASE_ANON_KEY) = .ok resp →
           Response.isOk resp = false ∨ parseJson resp.body = none) →
       getScripts env (some c) now fetchO parseJson = ((joinN c.head, joinN c.body), some c))
    ∧ (∀ (env : Env) (now : Int) (fetchO : FetchOracle)
        (parseJson : String → Option ScriptsJson),
       (∀ resp, fetchO (env.SUPABASE_URL ++ "/functions/v1/script-service")
           (scriptServiceInit env.SUPABASE_ANON_KEY) = .ok resp →
           Response.isOk resp = false ∨ parseJson resp.body = none) →
       getScripts env none now fetchO parseJson = (("", ""), none)) := by
  refine ⟨?_, ?_, ?_, ?_⟩
  · intro env c now fetchO parseJson hfresh
    simp [getScripts, hfresh]
  · intro env st now fetchO parseJson resp data hstale hout hok hparse
    have hfetch : getScriptsFetch env st now fetchO parseJson =
        ((joinN (data.head.getD []), joinN (data.body.getD [])),
         some { head := data.head.getD [], body := data.body.getD [], fetchedAt := now }) := by
      unfold getScriptsFetch
      rw [hout]
      simp [hok, hparse]
    rcases hstale with hnone | ⟨c, hc, hcs⟩
    · subst hnone
      rw [getScripts, hfetch]
    · subst hc
      rw [getScripts, if_neg hcs, hfetch]
  · intro env c now fetchO parseJson hfail
    by_cases hfresh : now - c.fetchedAt < CACHE_TTL_MS
    · simp [getScripts, hfresh]
    · rw [getScripts, if_neg hfresh, getScriptsFetch_fails env _ now fetchO parseJson hfail]
      rfl
  · intro env now fetchO parseJson hfail
    rw [getScripts, getScriptsFetch_fails env _ now fetchO parseJson hfail]
    rfl

/-- Witness for C6: concrete fresh-cache, failure-with-prior,
failure-without-prior and successful-refresh calls. -/
theorem getScripts_policy_witness :
    getScripts (Env.mk "https://x.co" "k") (some (ScriptCache.mk ["<a>"] ["<b>"] 0)) 1000
      (fun _ _ => FetchOutcome.thrown) (fun _ => none) = (("<a>", "<b>"), some (ScriptCache.mk ["<a>"] ["<b>"] 0)) ∧
    getScripts (Env.mk "https://x.co" "k") none 1000
      (fun _ _ => FetchOutcome.thrown) (fun _ => none) = (("", ""), none) ∧
    getScripts (Env.mk "https://x.co" "k") none 1000
      (fun _ _ => FetchOutcome.ok (Response.mk 200 [] "json"))
      (fun _ => some (ScriptsJson.mk (some ["<h>"]) none)) =
      (("<h>", ""), some (ScriptCache.mk ["<h>"] [] 1000)) := by
  refine ⟨?_, ?_, ?_⟩
  · exact getScripts_policy.1 (Env.mk "https://x.co" "k") (ScriptCache.mk ["<a>"] ["<b>"] 0)
      1000 (fun _ _ => FetchOutcome.thrown) (fun _ => none) (by decide)
  · exact getScripts_policy.2.2.2 (Env.mk "https://x.co" "k") 1000
      (fun _ _ => FetchOutcome.thrown) (fun _ => none) (fun resp h => by cases h)
  · exact getScripts_policy.2.1 (Env.mk "https://x.co" "k") none 1000
      (fun _ _ => FetchOutcome.ok (Response.mk 200 [] "json"))
      (fun _ => some (ScriptsJson.mk (some ["<h>"]) none))
      (Response.mk 200 [] "json") (ScriptsJson.mk (some ["<h>"]) none)
      (Or.inl rfl) rfl (by decide) rfl

/-- C10: a failed refresh while a stored value exists leaves the whole
cache record — fragments and `fetchedAt` — unchanged; and because the
freshness test is re-evaluated against the unchanged `fetchedAt`, every
call past the TTL window re-enters the fetch attempt (failures are
never negatively cached). -/
theorem getScripts_failure_no_negative_cache :
    (∀ (env : Env) (c : ScriptCache) (now : Int) (fetchO : FetchOracle)
        (parseJson : String → Option ScriptsJson),
       (∀ resp, fetchO (env.SUPABASE_URL ++ "/functions/v1/script-service")
           (scriptServiceInit env.SUPABASE_ANON_KEY) = .ok resp →
           Response.isOk resp = false ∨ parseJson resp.body = none) →
       (getScripts env (some c) now fetchO parseJson).2 = some c)
    ∧ (∀ (env : Env) (c : ScriptCache) (now' : Int) (fetchO : FetchOracle)
        (parseJson : String → Option ScriptsJson),
       ¬ (now' - c.fetchedAt < CACHE_TTL_MS) →
       getScripts env (some c) now' fetchO parseJson =
         getScriptsFetch env (some c) now' fetchO parseJson) := by
  constructor
  · intro env c now fetchO parseJson hfail
    by_cases hfresh : now - c.fetchedAt < CACHE_TTL_MS
    · simp [getScripts, hfresh]
    · rw [getScripts, if_neg hfresh, getScriptsFetch_fails env _ now fetchO parseJson hfail]
      rfl
  · intro env c now' fetchO parseJson hstale
    rw [getScripts, if_neg hstale]

/-- Witness for C10: concrete failed refresh preserving the stored
record, whose expired timestamp routes the call into the fetch
attempt. -/
theorem getScripts_failure_no_negative_cache_witness :
    (getScripts (Env.mk "https://x.co" "k") (some (ScriptCache.mk ["<a>"] [] 0)) 400000
      (fun _ _ => FetchOutcome.thrown) (fun _ => none)).2 = some (ScriptCache.mk ["<a>"] [] 0) ∧
    getScripts (Env.mk "https://x.co" "k") (some (ScriptCache.mk ["<a>"] [] 0)) 400000
      (fun _ _ => FetchOutcome.thrown) (fun _ => none) =
      getScriptsFetch (Env.mk "https://x.co" "k") (some (ScriptCache.mk ["<a>"] [] 0)) 400000
        (fun _ _ => FetchOutcome.thrown) (fun _ => none) := by
  constructor
  · exact getScripts_failure_no_negative_cache.1 (Env.mk "https://x.co" "k")
      (ScriptCache.mk ["<a>"] [] 0) 400000 (fun _ _ => FetchOutcome.thrown) (fun _ => none)
      (fun resp h => by cases h)
  · exact getScripts_failure_no_negative_cache.2 (Env.mk "https://x.co" "k")
      (ScriptCache.mk ["<a>"] [] 0) 400000 (fun _ _ => FetchOutcome.thrown) (fun _ => none)
      (by decide)


/-- C2 counterexample: at the concrete credential `"anon"` (and UA
`"Googlebot/2.1"` for the page lookup), every fetch-options object the
middleware builds carries no timeout/abort signal at all — refuting
that each outbound call applies a request timeout. -/
theorem fetch_options_no_timeout_counterexample :
    (scriptServiceInit "anon").signalTimeoutMs = none ∧
    (generateSitemapInit "anon").signalTimeoutMs = none ∧
    (serveSitemapInit "anon").signalTimeoutMs = none ∧
    (prerenderInit "anon" "Googlebot/2.1").signalTimeoutMs = none :=
  ⟨rfl, rfl, rfl, rfl⟩

/-- C2 amended: none of the four outbound backend calls (script
registry, dynamic sitemap, static sitemap, page lookup) specifies any
timeout or abort signal — their options hold headers only, so a hung
backend is bounded only by the platform's own socket limits; a fetch
that fails by throwing is treated as a transport failure and triggers
the documented fallback (stale-or-empty scripts, fall-through for both
sitemap branches and the bot branch). -/
theorem fetch_calls_no_timeout_thrown_falls_back :
    (∀ k, (scriptServiceInit k).signalTimeoutMs = none) ∧
    (∀ k, (generateSitemapInit k).signalTimeoutMs = none) ∧
    (∀ k, (serveSitemapInit k).signalTimeoutMs = none) ∧
    (∀ k ua, (prerenderInit k ua).signalTimeoutMs = none) ∧
    (∀ (env : Env) (st : Option ScriptCache) (now : Int)
        (parseJson : String → Option ScriptsJson),
       getScriptsFetch env st now (fun _ _ => FetchOutcome.thrown) parseJson =
         staleOrEmpty st) ∧
    (∀ (env : Env) (path : String),
       dynamicSitemapBranch env path (fun _ _ => FetchOutcome.thrown) = none) ∧
    (∀ (env : Env) (path : String),
       staticSitemapBranch env path (fun _ _ => FetchOutcome.thrown) = none) ∧
    (∀ (env : Env) (path ua : String) (scripts : String × String),
       botBranch env path ua scripts (fun _ _ => FetchOutcome.thrown) = none) := by
  refine ⟨fun _ => rfl, fun _ => rfl, fun _ => rfl, fun _ _ => rfl, ?_, ?_, ?_, ?_⟩
  · intro env st now parseJson
    rfl
  · intro env path
    unfold dynamicSitemapBranch
    split <;> rfl
  · intro env path
    unfold staticSitemapBranch
    split <;> rfl
  · intro env path ua scripts
    unfold botBranch
    split <;> rfl


theorem dynamicSitemapBranch_none_of_path (env : Env) (path : String) (fetchO : FetchOracle)
    (h1 : path ≠ "/sitemap-markets.xml") (h2 : path ≠ "/sitemap-pillars.xml") :
    dynamicSitemapBranch env path fetchO = none := by
  unfold dynamicSitemapBranch
  rw [if_neg]
  simp [h1, h2]

theorem staticSitemapBranch_none_of_path (env : Env) (path : String) (fetchO : FetchOracle)
    (h3 : isSitemapShard path = false) (h4 : path ≠ "/sitemap-index.xml") :
    staticSitemapBranch env path fetchO = none := by
  unfold staticSitemapBranch
  rw [if_neg]
  simp [h3, h4]

theorem botBranch_none_of_human (env : Env) (path ua : String) (scripts : String × String)
    (fetchO : FetchOracle) (h : isBot ua = false) :
    botBranch env path ua scripts fetchO = none := by
  unfold botBranch
  rw [if_neg]
  simp [h]

theorem botBranch_none_of_fail (env : Env) (path ua : String) (scripts : String × String)
    (fetchO : FetchOracle)
    (hfail : ∀ resp, fetchO (env.SUPABASE_URL ++ "/functions/v1/prerender?path=" ++
        encodeURIComponent path) (prerenderInit env.SUPABASE_ANON_KEY ua) = .ok resp →
        Response.isOk resp = false) :
    botBranch env path ua scripts fetchO = none := by
  unfold botBranch
  cases hbot : isBot ua with
  | false => simp
  | true =>
    simp only [if_pos rfl]
    cases hout : fetchO (env.SUPABASE_URL ++ "/functions/v1/prerender?path=" ++
        encodeURIComponent path) (prerenderInit env.SUPABASE_ANON_KEY ua) with
    | thrown => rfl
    | ok resp => simp [hfail resp hout]

theorem onRequest_page_pipeline (env : Env) (st : Option ScriptCache) (now : Int)
    (hostname path ua : String) (fetchO : FetchOracle)
    (parseJson : String → Option ScriptsJson) (nextResp : Response) (nowIso : String)
    (hstatic : isStaticAsset path = false) (hdebug : path ≠ "/__debug")
    (hdyn : dynamicSitemapBranch env path fetchO = none)
    (hstat : staticSitemapBranch env path fetchO = none) :
    onRequest env st now hostname path ua fetchO parseJson nextResp nowIso =
      (match botBranch env path ua (getScripts env st now fetchO parseJson).1 fetchO with
       | some r => (r, (getScripts env st now fetchO parseJson).2)
       | none => (spaTail (getScripts env st now fetchO parseJson).1 nextResp,
                  (getScripts env st now fetchO parseJson).2)) := by
  unfold onRequest
  rw [if_neg (by simp [hstatic]), if_neg hdebug]
  simp only [hdyn, hstat]

/-- C3: for a bot-classified request on a page path whose prerender
lookup fails (backend non-2xx; a thrown fetch is the `thrown` oracle
case, also covered since the hypothesis is vacuous there and
`botBranch` falls through), the dispatcher's answer equals the SPA tail
— and hence equals the answer produced for the same request under any
human-classified User-Agent; no error response is returned to the
bot. -/
theorem bot_lookup_failure_equals_human (env : Env) (st : Option ScriptCache) (now : Int)
    (hostname path ua : String) (fetchO : FetchOracle)
    (parseJson : String → Option ScriptsJson) (nextResp : Response) (nowIso : String)
    (hstatic : isStaticAsset path = false) (hdebug : path ≠ "/__debug")
    (h1 : path ≠ "/sitemap-markets.xml") (h2 : path ≠ "/sitemap-pillars.xml")
    (h3 : isSitemapShard path = false) (h4 : path ≠ "/sitemap-index.xml")
    (hbot : isBot ua = true)
    (hfail : ∀ resp, fetchO (env.SUPABASE_URL ++ "/functions/v1/prerender?path=" ++
        encodeURIComponent path) (prerenderInit env.SUPABASE_ANON_KEY ua) = .ok resp →
        Response.isOk resp = false) :
    onRequest env st now hostname path ua fetchO parseJson nextResp nowIso =
      (spaTail (getScripts env st now fetchO parseJson).1 nextResp,
       (getScripts env st now fetchO parseJson).2) ∧
    (∀ ua2, isBot ua2 = false →
      onRequest env st now hostname path ua fetchO parseJson nextResp nowIso =
        onRequest env st now hostname path ua2 fetchO parseJson nextResp nowIso) := by
  have hdyn := dynamicSitemapBranch_none_of_path env path fetchO h1 h2
  have hstat := staticSitemapBranch_none_of_path env path fetchO h3 h4
  have hmain : onRequest env st now hostname path ua fetchO parseJson nextResp nowIso =
      (spaTail (getScripts env st now fetchO parseJson).1 nextResp,
       (getScripts env st now fetchO parseJson).2) := by
    rw [onRequest_page_pipeline env st now hostname path ua fetchO parseJson nextResp nowIso
      hstatic hdebug hdyn hstat]
    rw [botBranch_none_of_fail env path ua _ fetchO hfail]
  refine ⟨hmain, ?_⟩
  intro ua2 hua2
  rw [hmain, onRequest_page_pipeline env st now hostname path ua2 fetchO parseJson nextResp
    nowIso hstatic hdebug hdyn hstat]
  rw [botBranch_none_of_human env path ua2 _ fetchO hua2]


/-- Witness for C3: a concrete bot request whose prerender lookup
throws is answered exactly like the same request from a browser. -/
theorem bot_lookup_failure_equals_human_witness :
    onRequest sampleEnv none 0 "example.com" "/about" "Googlebot/2.1" thrownFetch
        (fun _ => none) spaResponse "2026-01-01T00:00:00.000Z" =
      onRequest sampleEnv none 0 "example.com" "/about" "Mozilla/5.0" thrownFetch
        (fun _ => none) spaResponse "2026-01-01T00:00:00.000Z" := by
  exact (bot_lookup_failure_equals_human sampleEnv none 0 "example.com" "/about"
    "Googlebot/2.1" thrownFetch (fun _ => none) spaResponse "2026-01-01T00:00:00.000Z"
    (by decide) (by decide) (by decide) (by decide) (by decide) (by decide) (by decide)
    (fun resp h => by cases h)).2 "Mozilla/5.0" (by decide)


theorem dynamicSitemapBranch_none_of_fail (env : Env) (path : String) (fetchO : FetchOracle)
    (hfail : ∀ resp, fetchO (env.SUPABASE_URL ++ "/functions/v1/generate-sitemap?type=" ++
        (if jsIncludes path "markets" then "markets" else "pillars"))
        (generateSitemapInit env.SUPABASE_ANON_KEY) = .ok resp →
        Response.isOk resp = false) :
    dynamicSitemapBranch env path fetchO = none := by
  unfold dynamicSitemapBranch
  split
  · dsimp only
    cases hout : fetchO (env.SUPABASE_URL ++ "/functions/v1/generate-sitemap?type=" ++
        (if jsIncludes path "markets" then "markets" else "pillars"))
        (generateSitemapInit env.SUPABASE_ANON_KEY) with
    | thrown => rfl
    | ok resp => simp [hfail resp hout]
  · rfl

theorem staticSitemapBranch_none_of_fail (env : Env) (path : String) (fetchO : FetchOracle)
    (hfail : ∀ resp, fetchO (env.SUPABASE_URL ++ "/functions/v1/serve-sitemap?file=" ++
        encodeURIComponent (stripLeadingSlash path))
        (serveSitemapInit env.SUPABASE_ANON_KEY) = .ok resp →
        Response.isOk resp = false) :
    staticSitemapBranch env path fetchO = none := by
  unfold staticSitemapBranch
  split
  · dsimp only
    cases hout : fetchO (env.SUPABASE_URL ++ "/functions/v1/serve-sitemap?file=" ++
        encodeURIComponent (stripLeadingSlash path))
        (serveSitemapInit env.SUPABASE_ANON_KEY) with
    | thrown => rfl
    | ok resp => simp [hfail resp hout]
  · rfl

/-- C1 amended: when the backend lookup for a sitemap path fails
(thrown fetch or non-2xx response, such as the backend's 404), the
middleware serves no sitemap-branch response at all: the request falls
through to the remaining pipeline — the bot prerender lookup and
ultimately the origin SPA tail — so the layer never synthesizes an
empty urlset document (and never emits a raw error of its own) for this
path class. -/
theorem sitemap_backend_failure_falls_through :
    (∀ (env : Env) (st : Option ScriptCache) (now : Int) (hostname path ua : String)
        (fetchO : FetchOracle) (parseJson : String → Option ScriptsJson)
        (nextResp : Response) (nowIso : String),
       (path = "/sitemap-markets.xml" ∨ path = "/sitemap-pillars.xml") →
       (∀ resp, fetchO (env.SUPABASE_URL ++ "/functions/v1/generate-sitemap?type=" ++
           (if jsIncludes path "markets" then "markets" else "pillars"))
           (generateSitemapInit env.SUPABASE_ANON_KEY) = .ok resp →
           Response.isOk resp = false) →
       onRequest env st now hostname path ua fetchO parseJson nextResp nowIso =
         (match botBranch env path ua (getScripts env st now fetchO parseJson).1 fetchO with
          | some r => (r, (getScripts env st now fetchO parseJson).2)
          | none => (spaTail (getScripts env st now fetchO parseJson).1 nextResp,
                     (getScripts env st now fetchO parseJson).2)))
    ∧ (∀ (env : Env) (st : Option ScriptCache) (now : Int) (hostname path ua : String)
        (fetchO : FetchOracle) (parseJson : String → Option ScriptsJson)
        (nextResp : Response) (nowIso : String),
       isStaticAsset path = false →
       (isSitemapShard path = true ∨ path = "/sitemap-index.xml") →
       (∀ resp, fetchO (env.SUPABASE_URL ++ "/functions/v1/serve-sitemap?file=" ++
           encodeURIComponent (stripLeadingSlash path))
           (serveSitemapInit env.SUPABASE_ANON_KEY) = .ok resp →
           Response.isOk resp = false) →
       onRequest env st now hostname path ua fetchO parseJson nextResp nowIso =
         (match botBranch env path ua (getScripts env st now fetchO parseJson).1 fetchO with
          | some r => (r, (getScripts env st now fetchO parseJson).2)
          | none => (spaTail (getScripts env st now fetchO parseJson).1 nextResp,
                     (getScripts env st now fetchO parseJson).2))) := by
  constructor
  · intro env st now hostname path ua fetchO parseJson nextResp nowIso hdynpath hfail
    have hdyn := dynamicSitemapBranch_none_of_fail env path fetchO hfail
    rcases hdynpath with hp | hp <;> subst hp
    · exact onRequest_page_pipeline env st now hostname _ ua fetchO parseJson nextResp nowIso
        (by decide) (by decide) hdyn
        (staticSitemapBranch_none_of_path env _ fetchO (by decide) (by decide))
    · exact onRequest_page_pipeline env st now hostname _ ua fetchO parseJson nextResp nowIso
        (by decide) (by decide) hdyn
        (staticSitemapBranch_none_of_path env _ fetchO (by decide) (by decide))
  · intro env st now hostname path ua fetchO parseJson nextResp nowIso hstatic hsm hfail
    have hstat := staticSitemapBranch_none_of_fail env path fetchO hfail
    have h1 : path ≠ "/sitemap-markets.xml" := by
      intro he
      rw [he] at hsm
      rcases hsm with hs | hi
      · exact absurd hs (by decide)
      · exact absurd hi (by decide)
    have h2 : path ≠ "/sitemap-pillars.xml" := by
      intro he
      rw [he] at hsm
      rcases hsm with hs | hi
      · exact absurd hs (by decide)
      · exact absurd hi (by decide)
    have hdebug : path ≠ "/__debug" := by
      intro he
      rw [he] at hsm
      rcases hsm with hs | hi
      · exact absurd hs (by decide)
      · exact absurd hi (by decide)
    exact onRequest_page_pipeline env st now hostname path ua fetchO parseJson nextResp nowIso
      hstatic hdebug (dynamicSitemapBranch_none_of_path env path fetchO h1 h2) hstat

/-- C1 counterexample: concrete request for `/sitemap-index.xml` whose
static-sitemap lookup returns the backend 404 (carrying the empty
urlset document as its body): the middleware's response body is the
injected origin SPA document, not the minimal empty urlset document the
claim requires. -/
theorem sitemap_failure_not_empty_urlset :
    (onRequest sampleEnv none 0 "example.com" "/sitemap-index.xml" "Mozilla/5.0" serve404Fetch
        (fun _ => none) spaResponse "2026-01-01T00:00:00.000Z").1.body =
      "<html><head></head><body>SPA</body></html>" ∧
    ¬ ((onRequest sampleEnv none 0 "example.com" "/sitemap-index.xml" "Mozilla/5.0" serve404Fetch
        (fun _ => none) spaResponse "2026-01-01T00:00:00.000Z").1.body = EMPTY_URLSET) := by
  constructor
  · decide
  · decide

/-- Witness for C1 (amended): the same concrete failing
`/sitemap-index.xml` request instantiates the fall-through theorem. -/
theorem sitemap_backend_failure_falls_through_witness :
    onRequest sampleEnv none 0 "example.com" "/sitemap-index.xml" "Mozilla/5.0" serve404Fetch
        (fun _ => none) spaResponse "2026-01-01T00:00:00.000Z" =
      (match botBranch sampleEnv "/sitemap-index.xml" "Mozilla/5.0"
          (getScripts sampleEnv none 0 serve404Fetch (fun _ => none)).1 serve404Fetch with
       | some r => (r, (getScripts sampleEnv none 0 serve404Fetch (fun _ => none)).2)
       | none => (spaTail (getScripts sampleEnv none 0 serve404Fetch (fun _ => none)).1
                    spaResponse,
                  (getScripts sampleEnv none 0 serve404Fetch (fun _ => none)).2)) := by
  apply sitemap_backend_failure_falls_through.2 sampleEnv none 0 "example.com"
    "/sitemap-index.xml" "Mozilla/5.0" serve404Fetch (fun _ => none) spaResponse
    "2026-01-01T00:00:00.000Z" (by decide) (Or.inr rfl)
  intro resp h
  have he : serve404Fetch (sampleEnv.SUPABASE_URL ++ "/functions/v1/serve-sitemap?file=" ++
      encodeURIComponent (stripLeadingSlash "/sitemap-index.xml"))
      (serveSitemapInit sampleEnv.SUPABASE_ANON_KEY) =
      FetchOutcome.ok (Response.mk 404
        [("Content-Type", "application/xml; charset=utf-8")] EMPTY_URLSET) := by decide
  rw [he] at h
  cases h
  decide


theorem lowerStr_ne_XSI (k : String) : lowerStr k ≠ "X-Scripts-Injected" := by
  intro h
  have hdata : k.toList.map Char.toLower = "X-Scripts-Injected".toList := by
    rw [← lowerStr_toList, h]
  cases hk : k.toList with
  | nil =>
    rw [hk] at hdata
    exact absurd hdata (by decide)
  | cons c cs =>
    rw [hk] at hdata
    rw [show "X-Scripts-Injected".toList = 'X' :: "-Scripts-Injected".toList from rfl] at hdata
    simp only [List.map_cons, List.cons.injEq] at hdata
    have h88 : (Char.toLower c).toNat = 88 := by
      rw [hdata.1]
      decide
    exact charToLower_not_upper c (by omega)

theorem objSet_XSI_append (hs : List (String × String)) :
    objSet (fromEntriesLower hs) "X-Scripts-Injected" "true" =
      fromEntriesLower hs ++ [("X-Scripts-Injected", "true")] := by
  unfold objSet
  rw [if_neg]
  intro hany
  rw [List.any_eq_true] at hany
  obtain ⟨p, hp, hpeq⟩ := hany
  obtain ⟨q, hq, rfl⟩ := List.mem_map.mp hp
  exact lowerStr_ne_XSI q.1 (by simpa using hpeq)

theorem headerGet_spaTail_other (hs : List (String × String)) (name : String)
    (hname : lowerStr name ≠ lowerStr "X-Scripts-Injected") :
    headerGet (fromEntriesLower hs ++ [("X-Scripts-Injected", "true")]) name =
      headerGet hs name := by
  unfold headerGet
  rw [List.find?_append]
  have hx : List.find? (fun p => lowerStr p.1 == lowerStr name)
      [("X-Scripts-Injected", "true")] = none := by
    have hne : (lowerStr "X-Scripts-Injected" == lowerStr name) = false := by
      rw [beq_eq_false_iff_ne]
      intro he
      exact hname he.symm
    simp [List.find?, hne]
  rw [hx, Option.or_none]
  exact headerGet_fromEntriesLower hs name

theorem headerGet_spaTail_XSI (hs : List (String × String))
    (habs : headerGet hs "X-Scripts-Injected" = none) :
    headerGet (fromEntriesLower hs ++ [("X-Scripts-Injected", "true")])
      "X-Scripts-Injected" = some "true" := by
  have h1 : headerGet (fromEntriesLower hs) "X-Scripts-Injected" = none := by
    rw [headerGet_fromEntriesLower]
    exact habs
  unfold headerGet at h1 ⊢
  rw [List.find?_append]
  rw [Option.map_eq_none'] at h1
  rw [h1, Option.none_or]
  simp [List.find?]

/-- C8: on the SPA tail, a non-HTML origin response is returned
entirely unmodified; an HTML origin response keeps its status code and
(case-insensitively) every origin header other than
`X-Scripts-Injected`, carries the origin body with scripts injected,
and gains `X-Scripts-Injected: true` (stated for origins that do not
already send that header). -/
theorem spaTail_spec :
    (∀ (scripts : String × String) (resp : Response),
       jsIncludes (jsOrDefault (headerGet resp.headers "Content-Type") "") "text/html" =
         false →
       spaTail scripts resp = resp)
    ∧ (∀ (scripts : String × String) (resp : Response),
       jsIncludes (jsOrDefault (headerGet resp.headers "Content-Type") "") "text/html" =
         true →
       (spaTail scripts resp).status = resp.status ∧
       (spaTail scripts resp).body = injectScripts resp.body scripts ∧
       (∀ name, lowerStr name ≠ lowerStr "X-Scripts-Injected" →
         headerGet (spaTail scripts resp).headers name = headerGet resp.headers name) ∧
       (headerGet resp.headers "X-Scripts-Injected" = none →
         headerGet (spaTail scripts resp).headers "X-Scripts-Injected" = some "true")) := by
  constructor
  · intro scripts resp h
    unfold spaTail
    rw [if_pos]
    simp [h]
  · intro scripts resp h
    have htail : spaTail scripts resp =
        { status := resp.status,
          headers := objSet (fromEntriesLower resp.headers) "X-Scripts-Injected" "true",
          body := injectScripts resp.body scripts } := by
      unfold spaTail
      rw [if_neg]
      simp [h]
    rw [htail]
    refine ⟨rfl, rfl, ?_, ?_⟩
    · intro name hname
      show headerGet (objSet (fromEntriesLower resp.headers) "X-Scripts-Injected" "true")
        name = headerGet resp.headers name
      rw [objSet_XSI_append]
      exact headerGet_spaTail_other resp.headers name hname
    · intro habs
      show headerGet (objSet (fromEntriesLower resp.headers) "X-Scripts-Injected" "true")
        "X-Scripts-Injected" = some "true"
      rw [objSet_XSI_append]
      exact headerGet_spaTail_XSI resp.headers habs

/-- Witness for C8: a concrete JSON response passed through untouched,
and a concrete HTML response with preserved status and content type
plus the added header. -/
theorem spaTail_spec_witness :
    spaTail ("<s1>", "<s2>") (Response.mk 200 [("Content-Type", "application/json")] "x") =
      Response.mk 200 [("Content-Type", "application/json")] "x" ∧
    headerGet (spaTail ("<s1>", "<s2>")
        (Response.mk 201 [("Content-Type", "text/html")] "<html></html>")).headers
      "content-type" = some "text/html" ∧
    headerGet (spaTail ("<s1>", "<s2>")
        (Response.mk 201 [("Content-Type", "text/html")] "<html></html>")).headers
      "X-Scripts-Injected" = some "true" ∧
    (spaTail ("<s1>", "<s2>")
        (Response.mk 201 [("Content-Type", "text/html")] "<html></html>")).status = 201 := by
  refine ⟨?_, ?_, ?_, ?_⟩
  · exact spaTail_spec.1 ("<s1>", "<s2>")
      (Response.mk 200 [("Content-Type", "application/json")] "x") (by decide)
  · have := (spaTail_spec.2 ("<s1>", "<s2>")
      (Response.mk 201 [("Content-Type", "text/html")] "<html></html>")
      (by decide)).2.2.1 "content-type" (by decide)
    rw [this]
    decide
  · exact (spaTail_spec.2 ("<s1>", "<s2>")
      (Response.mk 201 [("Content-Type", "text/html")] "<html></html>")
      (by decide)).2.2.2 (by decide)
  · exact (spaTail_spec.2 ("<s1>", "<s2>")
      (Response.mk 201 [("Content-Type", "text/html")] "<html></html>")
      (by decide)).1

end Prerender
